import Mathlib

/-!
Verification of the clock-synchronization client (Cristian's Algorithm).

The repository contains two client variants and a time server:

* `src/client.py` — class `ClockClient` with a drifting local clock
  (`R_base`, `L_base`, `rho`), Cristian's-algorithm sync
  (`request_time_sync`) and an error-budget-driven interval computation
  (`calculate_sync_interval`).
* `src/network.py` — class `DriftClock` (lock-guarded drifting clock) and
  class `Client` with its own `calculate_sync_interval` and a periodic
  `sync_thread` scheduler.

Time values (seconds, Python floats) are modelled as rationals; clock
readings are passed explicitly where the Python code calls
`time.time()` / `time.monotonic()`.
-/

namespace ClockSync

/-- State of the drifting local clock: drift ratio `rho`, reference-clock
reading at last rebase (`R_base`; `anchor_reference` in the spec), and local
time at last rebase (`L_base`; `anchor_local`).  Shared by
`ClockClient.__init__` (src/client.py lines 12-18) and `DriftClock.__init__`
(src/network.py lines 14-18). -/
structure ClockState where
  rho : ℚ
  R_base : ℚ
  L_base : ℚ
deriving DecidableEq

/-- `ClockClient.get_local_time` (src/client.py lines 52-56) and
`DriftClock.get_local_time` (src/network.py lines 22-28):
`L(t) = L_base + (R_t - R_base) * (1 + rho)`, where `R_t` is the current
reference-clock reading (passed explicitly here). -/
def get_local_time (s : ClockState) (R_t : ℚ) : ℚ :=
  s.L_base + (R_t - s.R_base) * (1 + s.rho)

/-- `ClockClient.update_local_clock` (src/client.py lines 58-61) and
`DriftClock.set_local_time` (src/network.py lines 30-36): set
`R_base` to the current reference reading (`R_now`, the `time.time()` /
`time.monotonic()` call inside the method) and `L_base` to the new local
time. -/
def update_local_clock (s : ClockState) (R_now new_local_time : ℚ) : ClockState :=
  { s with R_base := R_now, L_base := new_local_time }

/-- Network uncertainty used by `ClockClient.calculate_sync_interval`
(src/client.py lines 115-124): `max_network_delay` is the measured RTT
times 1.5 when available, otherwise the worst case 0.001 s; the
uncertainty (`network_error`) is half of that. -/
def network_uncertainty : Option ℚ → ℚ
  | some r => r * (3/2) / 2
  | none => (1/1000) / 2

/-- `ClockClient.calculate_sync_interval` (src/client.py lines 109-152).
If `|rho| < 1e-12` the function returns `duration` (sync once, no clamp).
Otherwise `available_error = epsilon_max - network_error`; when it is
nonpositive the interval is 0.1, else `available_error / |rho| * 0.8`;
the result of this branch is clamped to `[0.1, duration]` via
`max(0.1, min(sync_interval, duration))`. -/
def calculate_sync_interval (measured_rtt : Option ℚ) (rho epsilon_max duration : ℚ) : ℚ :=
  if |rho| < 1/10^12 then duration
  else
    max (1/10)
      (min
        (if epsilon_max - network_uncertainty measured_rtt ≤ 0 then 1/10
         else (epsilon_max - network_uncertainty measured_rtt) / |rho| * (4/5))
        duration)

/-- `Client.calculate_sync_interval` (src/network.py lines 67-91).  If
`|rho| < 1e-10` return 5.0; otherwise `epsilon_max / (2 * |rho|)` clamped
to `[0.5, max(10, duration / 2)]`.  This variant ignores network
uncertainty entirely. -/
def network_calculate_sync_interval (rho epsilon_max duration : ℚ) : ℚ :=
  if |rho| < 1/10^10 then 5
  else
    max (1/2) (min (epsilon_max / (2 * |rho|)) (max 10 (duration / 2)))

/-- Outcome of the network exchange inside `request_time_sync`: an
exception raised at connect (`connectionFailed`), while blocked on the
response (`timeout`), or while parsing the response (`malformed`), or a
well-formed reply carrying `server_time`.  Any exception lands in the
`except` clause of src/client.py lines 105-107 / src/network.py lines
129-131. -/
inductive Response where
  | timeout
  | connectionFailed
  | malformed
  | ok (server_time : ℚ)
deriving DecidableEq

/-- `ClockClient.request_time_sync` (src/client.py lines 63-107).
`T0` and `T1` are the reference-clock readings taken before the request
and on response arrival; `R_upd` is the `time.time()` reading taken
inside `update_local_clock`.  On success: `RTT = T1 - T0`,
`estimated_time = server_time + RTT / 2`, the clock is rebased to
`estimated_time`, and `RTT` is returned.  On any failure the `except`
clause returns `None` and the clock state is untouched (every failure
point precedes the `update_local_clock` call). -/
def request_time_sync (s : ClockState) (T0 T1 R_upd : ℚ) (resp : Response) :
    Option ℚ × ClockState :=
  match resp with
  | Response.ok server_time =>
      let RTT := T1 - T0
      let estimated_time := server_time + RTT / 2
      (some RTT, update_local_clock s R_upd estimated_time)
  | _ => (none, s)

/-! Structural model of the lock discipline around the anchor pair
`(R_base, L_base)`.  Each clock method is transcribed as the sequence of
lock operations and anchor-field accesses its body performs. -/

/-- Atomic events of a clock-method body: acquiring/releasing the clock's
mutual-exclusion lock, and reads/writes of the anchor fields `R_base`
(anchor_reference) and `L_base` (anchor_local). -/
inductive ClockEvent where
  | acquireLock
  | releaseLock
  | readAnchorRef
  | readAnchorLoc
  | writeAnchorRef
  | writeAnchorLoc
deriving DecidableEq

/-- `ClockClient.get_local_time` (src/client.py lines 52-56): reads
`L_base` and `R_base` with no lock held (the class has no clock lock;
`csv_lock` and `buffer_lock` guard only logging). -/
def clockClient_get_local_time_events : List ClockEvent :=
  [ClockEvent.readAnchorLoc, ClockEvent.readAnchorRef]

/-- `ClockClient.update_local_clock` (src/client.py lines 58-61): writes
`R_base` then `L_base` with no lock held. -/
def clockClient_update_local_clock_events : List ClockEvent :=
  [ClockEvent.writeAnchorRef, ClockEvent.writeAnchorLoc]

/-- `DriftClock.get_local_time` (src/network.py lines 22-28): under
`with self.lock`, reads `R_base` (for `elapsed`) then `L_base`. -/
def driftClock_get_local_time_events : List ClockEvent :=
  [ClockEvent.acquireLock, ClockEvent.readAnchorRef, ClockEvent.readAnchorLoc,
   ClockEvent.releaseLock]

/-- `DriftClock.set_local_time` (src/network.py lines 30-36): under
`with self.lock`, reads `L_base` (for the log line), writes `L_base`,
writes `R_base`. -/
def driftClock_set_local_time_events : List ClockEvent :=
  [ClockEvent.acquireLock, ClockEvent.readAnchorLoc, ClockEvent.writeAnchorLoc,
   ClockEvent.writeAnchorRef, ClockEvent.releaseLock]

/-- Helper for `guarded`: scans the event list tracking whether the lock
is held; every anchor access must happen while it is held. -/
def guardedAux : Bool → List ClockEvent → Bool
  | _, [] => true
  | _, ClockEvent.acquireLock :: rest => guardedAux true rest
  | _, ClockEvent.releaseLock :: rest => guardedAux false rest
  | held, _ :: rest => held && guardedAux held rest

/-- A method body is guarded when every access to the anchor pair occurs
while the clock's mutual-exclusion lock is held. -/
def guarded (events : List ClockEvent) : Bool :=
  guardedAux false events

/-! Structural model of the blocking network steps of a sync attempt and
their configured timeouts. -/

/-- The blocking socket operations performed by `request_time_sync`. -/
inductive NetOp where
  | connect
  | send
  | recv
deriving DecidableEq

/-- One blocking network step together with the timeout configured on the
socket for it (`none` when no `settimeout` call applies). -/
structure NetStep where
  op : NetOp
  timeout : Option ℚ
deriving DecidableEq

/-- The blocking steps of `ClockClient.request_time_sync` (src/client.py
lines 70-78) and equally `Client.request_time_sync` (src/network.py lines
100-108): the socket is created with `socket.socket(...)` and neither
variant ever calls `settimeout`, so `connect`, `sendall` and `recv` all
run with no configured timeout. -/
def client_sync_net_steps : List NetStep :=
  [{ op := NetOp.connect, timeout := none },
   { op := NetOp.send, timeout := none },
   { op := NetOp.recv, timeout := none }]

/-! Model of the periodic scheduler `Client.sync_thread`
(src/network.py lines 159-184). -/

/-- Scheduler state of `sync_thread`: the attempt counter `sync_count`
and the absolute time `next_sync` of the next scheduled attempt. -/
structure SchedState where
  sync_count : ℕ
  next_sync : ℚ
deriving DecidableEq

/-- Reference-clock time of the n-th sync attempt under the fixed
schedule of `sync_thread`: the initial sync (attempt 0) at `start`, and
attempt n at `start + n * interval` (line 180:
`next_sync = start_time + sync_count * self.sync_interval`). -/
def attempt_time (start interval : ℚ) (n : ℕ) : ℚ :=
  start + n * interval

/-- Time of the most recent successful attempt among attempts
`0 .. outcomes.length - 1`, where `outcomes` lists each attempt's
success flag (the boolean `request_time_sync` returns). -/
def lastSuccessTime (start interval : ℚ) (outcomes : List Bool) : Option ℚ :=
  (List.range outcomes.length).foldl
    (fun acc n => if outcomes.getD n false then some (attempt_time start interval n) else acc)
    none

/-- `Client.sync_thread` after `n` periodic firings, given the outcome
oracle `o` (attempt k succeeded iff `o k`).  Transcribed from
src/network.py lines 159-184: after the initial sync, `sync_count = 1`
and `next_sync = start_time + sync_interval` (line 166); on each firing
`sync_count` is incremented, `self.request_time_sync()` is called with
its boolean result discarded (line 178), and
`next_sync = start_time + sync_count * sync_interval` (line 180).  The
loop never breaks on a failed sync. -/
def sched_after (start interval : ℚ) (o : ℕ → Bool) : ℕ → SchedState
  | 0 => { sync_count := 1, next_sync := start + interval }
  | n + 1 =>
      let s := sched_after start interval o n
      { sync_count := s.sync_count + 1,
        next_sync := start + (s.sync_count + 1 : ℕ) * interval }

/-- Closed form of the scheduler state: after `n` periodic firings,
`sync_count = n + 1` and `next_sync = start + (n + 1) * interval`,
whatever the attempt outcomes were. -/
theorem sched_after_eq (start interval : ℚ) (o : ℕ → Bool) (n : ℕ) :
    sched_after start interval o n
      = { sync_count := n + 1, next_sync := start + (n + 1 : ℕ) * interval } := by
  induction n with
  | zero => simp [sched_after]
  | succ n ih =>
      simp only [sched_after, ih]

/-- C2: on every successful run of `request_time_sync`, with `T0` the
reference-clock reading taken before the request and `T1` the reading on
response arrival, the code computes `RTT = T1 - T0` and
`estimated_time = server_time + RTT / 2`, returns the measured `RTT`,
and rebases the drifting clock to exactly `estimated_time`. -/
theorem C2_success_rebases_to_estimate (s : ClockState) (T0 T1 server_time R_upd : ℚ) :
    (request_time_sync s T0 T1 R_upd (Response.ok server_time)).1 = some (T1 - T0) ∧
    (request_time_sync s T0 T1 R_upd (Response.ok server_time)).2
      = update_local_clock s R_upd (server_time + (T1 - T0) / 2) ∧
    (request_time_sync s T0 T1 R_upd (Response.ok server_time)).2.L_base
      = server_time + (T1 - T0) / 2 :=
  ⟨rfl, rfl, rfl⟩

/-- C3: every failing invocation of `request_time_sync` (timeout,
connection failure, or malformed response) returns the failure value
`none` instead of raising, and leaves the clock state — in particular
the `(R_base, L_base)` anchor pair — exactly as it was. -/
theorem C3_failure_returns_none_state_unchanged (s : ClockState) (T0 T1 R_upd : ℚ) :
    request_time_sync s T0 T1 R_upd Response.timeout = (none, s) ∧
    request_time_sync s T0 T1 R_upd Response.connectionFailed = (none, s) ∧
    request_time_sync s T0 T1 R_upd Response.malformed = (none, s) :=
  ⟨rfl, rfl, rfl⟩

/-- C5: rebasing the clock to `v` and reading it back at the same
reference-clock instant (no drift elapsed between the calls) yields
exactly `v` — in particular within any floating-point tolerance. -/
theorem C5_rebase_then_now (s : ClockState) (R v : ℚ) :
    get_local_time (update_local_clock s R v) R = v := by
  simp [get_local_time, update_local_clock]

/-- C6: between rebases the local clock is monotone: with drift ratio
`rho > -1` and non-decreasing reference readings `R1 <= R2`, the later
`get_local_time` sample is at least the earlier one. -/
theorem C6_monotone_between_rebases (s : ClockState) (R1 R2 : ℚ)
    (hrho : -1 < s.rho) (hR : R1 ≤ R2) :
    get_local_time s R1 ≤ get_local_time s R2 := by
  unfold get_local_time
  have hpos : 0 < 1 + s.rho := by linarith
  nlinarith [mul_le_mul_of_nonneg_right (sub_le_sub_right hR s.R_base) hpos.le]

/-- Witness for C6 at a concrete state and pair of readings. -/
theorem C6_monotone_between_rebases_witness :
    get_local_time { rho := 1/100, R_base := 0, L_base := 5 } 1
      ≤ get_local_time { rho := 1/100, R_base := 0, L_base := 5 } 2 :=
  C6_monotone_between_rebases { rho := 1/100, R_base := 0, L_base := 5 } 1 2
    (by norm_num) (by norm_num)

/-- C4 counterexample: it is not the case that every read and every
mutation of the anchor pair is guarded by the clock lock — the
`ClockClient` variant's `get_local_time` and `update_local_clock`
access `R_base` / `L_base` with no lock held. -/
theorem C4_counterexample :
    ¬ (guarded clockClient_get_local_time_events = true ∧
       guarded clockClient_update_local_clock_events = true ∧
       guarded driftClock_get_local_time_events = true ∧
       guarded driftClock_set_local_time_events = true) := by
  decide

/-- C4 amended: in the `DriftClock` variant (src/network.py) every read
and mutation of the anchor pair is guarded by the single lock, but in
the `ClockClient` variant (src/client.py) both the reader and the
mutator access the pair unguarded, so a torn pair is observable there. -/
theorem C4_lock_discipline :
    guarded driftClock_get_local_time_events = true ∧
    guarded driftClock_set_local_time_events = true ∧
    guarded clockClient_get_local_time_events = false ∧
    guarded clockClient_update_local_clock_events = false := by
  decide

/-- C9 counterexample: it is not the case that every blocking network
step of a sync attempt carries a bounded timeout — no step has one
configured (neither variant ever calls `settimeout`). -/
theorem C9_counterexample :
    (client_sync_net_steps.all fun st => st.timeout.isSome) = false := by
  decide

/-- C9 amended: every blocking network step of `request_time_sync`
(connect, send, receive) runs with no configured timeout; failures the
OS reports are caught and surfaced as a failure result, but a server
that accepts and never responds blocks the attempt indefinitely. -/
theorem C9_no_timeout_configured :
    (client_sync_net_steps.all fun st => st.timeout.isNone) = true := by
  decide

/-- C1 counterexample: with no measured RTT the worst-case network
uncertainty is u = 0.0005 s; at rho = 100, epsilon_max = 0.001 s (> u)
and duration 10 s the computed interval is floor-clamped to 0.1 s, and
`|rho| * interval + u = 10.0005 > epsilon_max`: the claimed invariant
fails whenever the 0.1 s floor clamp overrides the raw interval. -/
theorem C1_counterexample :
    network_uncertainty none < 1/1000 ∧
    ¬ (|(100:ℚ)| * calculate_sync_interval none 100 (1/1000) 10
        + network_uncertainty none ≤ 1/1000) := by
  constructor
  · norm_num [network_uncertainty]
  · norm_num [calculate_sync_interval, network_uncertainty]

/-- C1 amended: for `|rho|` at or above the 1e-12 driftless threshold,
(i) whenever the safety-margined raw interval
`(epsilon_max - u) / |rho| * 0.8` is at least the 0.1 s floor, the
computed interval satisfies `|rho| * interval + u <= epsilon_max`; and
(ii) whenever `epsilon_max <= u`, the interval equals the configured
0.1 s minimum floor.  (Below the threshold the code returns `duration`
instead; and when the floor clamp overrides the raw interval the error
bound can be exceeded.) -/
theorem C1_interval_respects_budget (mrtt : Option ℚ) (rho epsilon_max duration : ℚ)
    (hrho : ¬ |rho| < 1/10^12) :
    ((1:ℚ)/10 ≤ (epsilon_max - network_uncertainty mrtt) / |rho| * (4/5) →
      |rho| * calculate_sync_interval mrtt rho epsilon_max duration
        + network_uncertainty mrtt ≤ epsilon_max) ∧
    (epsilon_max ≤ network_uncertainty mrtt →
      calculate_sync_interval mrtt rho epsilon_max duration = 1/10) := by
  have hApos : (0:ℚ) < |rho| := lt_of_lt_of_le (by norm_num) (not_lt.mp hrho)
  have hAne : |rho| ≠ 0 := ne_of_gt hApos
  constructor
  · intro hfloor
    have havail : 0 < epsilon_max - network_uncertainty mrtt := by
      by_contra hle
      push_neg at hle
      have h1 : (epsilon_max - network_uncertainty mrtt) / |rho| ≤ 0 :=
        div_nonpos_of_nonpos_of_nonneg hle hApos.le
      nlinarith
    have hne : ¬ (epsilon_max - network_uncertainty mrtt ≤ 0) := not_le.mpr havail
    simp only [calculate_sync_interval, if_neg hrho, if_neg hne]
    have hmax :
        max (1/10 : ℚ)
            (min ((epsilon_max - network_uncertainty mrtt) / |rho| * (4/5)) duration)
          ≤ (epsilon_max - network_uncertainty mrtt) / |rho| * (4/5) :=
      max_le hfloor (min_le_left _ _)
    have hmul :
        |rho| * max (1/10 : ℚ)
            (min ((epsilon_max - network_uncertainty mrtt) / |rho| * (4/5)) duration)
          ≤ |rho| * ((epsilon_max - network_uncertainty mrtt) / |rho| * (4/5)) :=
      mul_le_mul_of_nonneg_left hmax hApos.le
    have heq : |rho| * ((epsilon_max - network_uncertainty mrtt) / |rho| * (4/5))
        = (epsilon_max - network_uncertainty mrtt) * (4/5) := by
      field_simp
      ring
    rw [heq] at hmul
    linarith
  · intro hle
    have h0 : epsilon_max - network_uncertainty mrtt ≤ 0 := by linarith
    simp only [calculate_sync_interval, if_neg hrho, if_pos h0]
    exact max_eq_left (min_le_left _ _)

/-- Witness for C1 amended: at rho = 1, epsilon_max = 1 s, duration 10 s
the computed interval keeps the drift-plus-network error within budget. -/
theorem C1_interval_respects_budget_witness :
    |(1:ℚ)| * calculate_sync_interval none 1 1 10 + network_uncertainty none ≤ 1 :=
  (C1_interval_respects_budget none 1 1 10 (by norm_num)).1
    (by norm_num [network_uncertainty])

/-- C7 counterexample: in the `ClockClient` variant the driftless branch
returns the run duration itself, so with rho = 0 two different duration
arguments (other inputs equal) give two different intervals — the
cadence is not independent of duration. -/
theorem C7_counterexample :
    calculate_sync_interval none 0 1 10 = 10 ∧
    calculate_sync_interval none 0 1 20 = 20 ∧
    calculate_sync_interval none 0 1 10 ≠ calculate_sync_interval none 0 1 20 := by
  refine ⟨by norm_num [calculate_sync_interval], by norm_num [calculate_sync_interval],
    by norm_num [calculate_sync_interval]⟩

/-- C7 amended: when `|rho|` is below the negligible-drift threshold,
the `ClockClient` variant returns the duration argument itself (a single
sync for the whole run, so the interval depends on duration), while the
`Client` variant of src/network.py returns the fixed 5.0 s cadence
independent of duration. -/
theorem C7_driftless_interval (mrtt : Option ℚ) (rho epsilon_max duration : ℚ)
    (h : |rho| < 1/10^12) :
    calculate_sync_interval mrtt rho epsilon_max duration = duration ∧
    network_calculate_sync_interval rho epsilon_max duration = 5 := by
  refine ⟨?_, ?_⟩
  · simp only [calculate_sync_interval, if_pos h]
  · have h10 : |rho| < 1/10^10 := lt_trans h (by norm_num)
    simp only [network_calculate_sync_interval, if_pos h10]

/-- Witness for C7 amended at rho = 0. -/
theorem C7_driftless_interval_witness :
    calculate_sync_interval none 0 1 10 = 10 ∧
    network_calculate_sync_interval 0 1 10 = 5 :=
  C7_driftless_interval none 0 1 10 (by norm_num)

/-- C8 counterexample: a successful sync with `T0 = 0`, `T1 = 1`
(so rtt = 1, one-way estimate rtt/2 = 1/2) returns `some 1` — the full
round-trip time — not the one-way delay estimate `1/2`, and the return
value carries no offset component at all. -/
theorem C8_counterexample :
    (request_time_sync { rho := 0, R_base := 0, L_base := 0 } 0 1 2
      (Response.ok 100)).1 = some 1 ∧
    (request_time_sync { rho := 0, R_base := 0, L_base := 0 } 0 1 2
      (Response.ok 100)).1 ≠ some ((1:ℚ)/2) := by
  constructor
  · norm_num [request_time_sync]
  · norm_num [request_time_sync]

/-- C8 amended: a successful invocation returns the full measured
round-trip time `rtt = T1 - T0` (from which rtt/2 is derivable), not
`rtt/2`, and it does not return the applied offset (the src/network.py
variant returns only a success boolean). -/
theorem C8_returns_full_rtt (s : ClockState) (T0 T1 server_time R_upd : ℚ) :
    (request_time_sync s T0 T1 R_upd (Response.ok server_time)).1 = some (T1 - T0) :=
  rfl

/-- C10: a run whose attempts 0..n include a failed scheduled attempt
(`outcomes.getD j false = false`) does not halt the scheduler: the next
attempt is still scheduled, it lands exactly on the originally computed
cadence anchored at the last successful sync (a whole number, at least
one, of intervals after the last successful attempt at index `m`), and
the schedule is identical to that of a failure-free run — the failure's
discarded boolean (src/network.py line 178) never perturbs `next_sync`. -/
theorem C10_next_attempt_from_last_success (start interval : ℚ) (outcomes : List Bool)
    (n m j : ℕ) (hlen : outcomes.length = n + 1) (hm : m ≤ n)
    (hlast : lastSuccessTime start interval outcomes = some (attempt_time start interval m))
    (hj : j ≤ n) (hfail : outcomes.getD j false = false) :
    (sched_after start interval (fun i => outcomes.getD i false) n).next_sync
        = attempt_time start interval m + (n + 1 - m : ℕ) * interval ∧
    1 ≤ n + 1 - m ∧
    sched_after start interval (fun i => outcomes.getD i false) n
        = sched_after start interval (fun _ => true) n := by
  refine ⟨?_, ?_, ?_⟩
  · rw [sched_after_eq]
    show start + ((n + 1 : ℕ) : ℚ) * interval = _
    have hmn : m ≤ n + 1 := by omega
    rw [Nat.cast_sub hmn]
    simp only [attempt_time]
    push_cast
    ring
  · omega
  · rw [sched_after_eq, sched_after_eq]

/-- Witness for C10: interval 1 from start 0, attempt 0 succeeds,
attempt 1 fails; the scheduler still fires attempt 2, two whole
intervals after the last successful sync at time 0, on the same schedule
as a failure-free run. -/
theorem C10_next_attempt_from_last_success_witness :
    (sched_after 0 1 (fun i => [true, false].getD i false) 1).next_sync
        = attempt_time 0 1 0 + ((1 + 1 - 0 : ℕ) : ℚ) * 1 ∧
    1 ≤ 1 + 1 - 0 ∧
    sched_after 0 1 (fun i => [true, false].getD i false) 1
        = sched_after 0 1 (fun _ => true) 1 :=
  C10_next_attempt_from_last_success 0 1 [true, false] 1 0 1 (by decide) (by decide)
    (by simp [lastSuccessTime, List.range_succ]) (by decide) (by decide)

end ClockSync
